import Mathlib

/-!
Verification of the docs-site configuration record in `src/docs/config.js`.

The source file exports a single literal object (`module.exports = { ... }`).
We embed JavaScript values as a small inductive type `JsVal` and transcribe
the exported object field-for-field, in source order, preserving every
literal string.  Loading the module is modelled by `load`, which receives
the ambient environment (including the value bound by `require('path')`,
which the source imports but never uses) and returns the exported record.
-/

/-- A JavaScript value as it occurs in the configuration file:
a string literal, an array, or an object given as an ordered field list. -/
inductive JsVal where
  | str (s : String)
  | arr (xs : List JsVal)
  | obj (fields : List (String × JsVal))

/-- Is this value a string literal? -/
def JsVal.isStr : JsVal → Bool
  | .str _ => true
  | _ => false

/-- The nested `config:` object of `src/docs/config.js`, lines 11-21,
transcribed in source order. -/
def config_fields : List (String × JsVal) :=
  [ ("title", .str "Trame"),
    ("subtitle", .str "\"Trame the core of your next Web Application\""),
    ("description",
      .str "\"Trame a solution for building interactive applications using a Web front-end\""),
    ("author", .str "Kitware Inc."),
    ("timezone", .str "UTC"),
    ("url", .str "https://kitware.github.io/trame"),
    ("root", .str "/trame/"),
    ("github", .str "kitware/trame"),
    ("google_analytics_4", .str "G-H4W9XHTJ7X") ]

/-- The top-level field list of `module.exports` in `src/docs/config.js`,
lines 6-23, transcribed in source order. -/
def module_exports_fields : List (String × JsVal) :=
  [ ("baseUrl", .str "/trame"),
    ("work", .str "./build-tmp"),
    ("api", .arr [.str "../trame"]),
    ("examples", .arr []),
    ("config", .obj config_fields),
    ("copy", .arr []) ]

/-- The value of `module.exports` in `src/docs/config.js`. -/
def module_exports : JsVal := .obj module_exports_fields

/-- The ambient inputs available to the module when it is loaded: the value
bound by `const path = require('path')` (line 1 of the source; modelled
abstractly, since only its presence matters) together with the process
environment.  The exported object references neither. -/
structure Env where
  pathModule : List (String × JsVal)
  processEnv : List (String × String)

/-- Loading `src/docs/config.js`: evaluate the module body in environment
`e` and return `module.exports`.  Every field of the exported object is a
literal, so the body never consults `e`. -/
def load (e : Env) : JsVal :=
  match e with
  | _ => module_exports

/-- Field access on an object value, `none` on non-objects or missing keys. -/
def JsVal.lookupField : JsVal → String → Option JsVal
  | .obj fs, k => List.lookup k fs
  | _, _ => none

/-- The keys of an object value, in order; `[]` on non-objects. -/
def JsVal.objKeys : JsVal → List String
  | .obj fs => fs.map Prod.fst
  | _ => []

/-- Look up a field and require it to be a string literal. -/
def getStr (fs : List (String × JsVal)) (k : String) : Option String :=
  match List.lookup k fs with
  | some (.str s) => some s
  | _ => none

/-- Reading one field of the record, modelled as a state transformer:
it returns the field's value and passes the record through. -/
def readField (k : String) (s : JsVal) : Option JsVal × JsVal :=
  (s.lookupField k, s)

/-- Claim C1: every load of the configuration yields a record whose fields
are exactly the literal values of the source: `baseUrl = "/trame"`,
`work = "./build-tmp"`, `api = ["../trame"]`, `examples = []`,
`copy = []`, and the nested `config` holds the literal metadata values,
in particular `config.author = "Kitware Inc."`. -/
theorem C1_load_yields_literal_record (e : Env) :
    (load e).lookupField "baseUrl" = some (.str "/trame") ∧
    (load e).lookupField "work" = some (.str "./build-tmp") ∧
    (load e).lookupField "api" = some (.arr [.str "../trame"]) ∧
    (load e).lookupField "examples" = some (.arr []) ∧
    (load e).lookupField "copy" = some (.arr []) ∧
    (load e).lookupField "config" = some (.obj
      [ ("title", .str "Trame"),
        ("subtitle", .str "\"Trame the core of your next Web Application\""),
        ("description",
          .str "\"Trame a solution for building interactive applications using a Web front-end\""),
        ("author", .str "Kitware Inc."),
        ("timezone", .str "UTC"),
        ("url", .str "https://kitware.github.io/trame"),
        ("root", .str "/trame/"),
        ("github", .str "kitware/trame"),
        ("google_analytics_4", .str "G-H4W9XHTJ7X") ]) ∧
    getStr config_fields "author" = some "Kitware Inc." := by
  refine ⟨?_, ?_, ?_, ?_, ?_, ?_, ?_⟩ <;> rfl

/-- Claim C2: the `examples` field and the `copy` field of the configuration
record are both empty arrays (length zero, hence trivially sequences of
strings). -/
theorem C2_examples_and_copy_empty :
    module_exports.lookupField "examples" = some (.arr []) ∧
    module_exports.lookupField "copy" = some (.arr []) ∧
    ([] : List JsVal).length = 0 := by
  refine ⟨rfl, rfl, rfl⟩

/-- Claim C3: the nested `config` record has exactly the nine
presentation-metadata fields `title`, `subtitle`, `description`, `author`,
`timezone`, `url`, `root`, `github`, `google_analytics_4`, in that order
and no others, and every one of its values is a string. -/
theorem C3_config_has_exactly_nine_string_fields :
    module_exports.lookupField "config" = some (.obj config_fields) ∧
    config_fields.map Prod.fst =
      [ "title", "subtitle", "description", "author", "timezone",
        "url", "root", "github", "google_analytics_4" ] ∧
    config_fields.length = 9 ∧
    config_fields.all (fun kv => kv.2.isStr) = true := by
  refine ⟨rfl, rfl, rfl, rfl⟩

/-- Claim C4: the `api` field is a one-element array whose only element is
the string `"../trame"` (so every element is a string path), and the
`work` field is the single string path `"./build-tmp"`. -/
theorem C4_api_and_work_values :
    module_exports.lookupField "api" = some (.arr [.str "../trame"]) ∧
    ([JsVal.str "../trame"].all JsVal.isStr) = true ∧
    module_exports.lookupField "work" = some (.str "./build-tmp") := by
  refine ⟨rfl, rfl, rfl⟩

/-- Claim C5: the record is immutable after construction.  The only
operation this layer offers is reading a field, and reading any field
leaves the record exactly as constructed, so the value observed after any
sequence of reads equals the value at construction. -/
theorem C5_reads_never_mutate (e : Env) (ks : List String) :
    (ks.foldl (fun s k => (readField k s).2) (load e)) = load e := by
  induction ks with
  | nil => rfl
  | cons k ks ih =>
      simp [readField, ih]

/-- Claim C6: loading the configuration is deterministic and
input-independent: the module body uses only literals (the imported `path`
module and the process environment are never consulted), so any two loads
yield the identical record `module_exports`. -/
theorem C6_load_deterministic (e₁ e₂ : Env) :
    load e₁ = load e₂ ∧ load e₁ = module_exports := by
  exact ⟨rfl, rfl⟩

/-- Claim C7: the root path of the nested config equals the top-level
`baseUrl` with a trailing slash appended:
`config.root = baseUrl ++ "/"`, concretely `"/trame/" = "/trame" ++ "/"`. -/
theorem C7_root_is_baseUrl_slash :
    getStr config_fields "root" =
      (getStr module_exports_fields "baseUrl").map (fun b => b ++ "/") ∧
    getStr config_fields "root" = some ("/trame" ++ "/") := by
  exact ⟨rfl, rfl⟩

/-- Claim C8: the canonical URL of the nested config ends with the
top-level `baseUrl`: there is a host part `p` with
`config.url = p ++ baseUrl`, namely `p = "https://kitware.github.io"`. -/
theorem C8_url_ends_with_baseUrl :
    ∃ p b, getStr module_exports_fields "baseUrl" = some b ∧
      getStr config_fields "url" = some (p ++ b) := by
  exact ⟨"https://kitware.github.io", "/trame", rfl, rfl⟩

/-- Claim C9: the `config.subtitle` and `config.description` values each
begin and end with an embedded double-quote character, as part of the
string value itself (each value is strictly longer than the two quote
characters). -/
theorem C9_subtitle_description_quoted :
    ∃ s d, getStr config_fields "subtitle" = some s ∧
      getStr config_fields "description" = some d ∧
      s.data.head? = some '"' ∧ s.data.getLast? = some '"' ∧
      d.data.head? = some '"' ∧ d.data.getLast? = some '"' ∧
      2 < s.length ∧ 2 < d.length := by
  refine ⟨_, _, rfl, rfl, ?_, ?_, ?_, ?_, ?_, ?_⟩ <;> decide
